import Mathlib

/-!
# Verification of the GetFame backend payment-to-fulfillment pipeline

Shallow embedding of the GetFame backend source (JavaScript) and proofs about
its webhook verification, order lifecycle, dispatch, validation and catalog
caching behaviour.  Each definition mirrors a concrete function of the source
tree; the file comment above each definition names the file and lines it
embeds.  External primitives (the HMAC-SHA512 digest of the Node crypto
library, the Stripe SDK verifier, the network) are passed in as explicit
parameters or environment values, so every definition is executable.
-/

set_option autoImplicit false

namespace GetFame

/-! ## JSON value model

The webhook bodies are JSON objects.  `Json`, `JsonList` and `JsonFields` form
a mutual inductive so that all recursion over values stays structural (and
hence computes by `decide`/`rfl`).  Numbers are modelled as integers: every
numeric field the verified properties touch is integral.
-/

mutual
inductive Json where
  | null : Json
  | bool (b : Bool) : Json
  | num (n : Int) : Json
  | str (s : String) : Json
  | arr (xs : JsonList) : Json
  | obj (fs : JsonFields) : Json
inductive JsonList where
  | nil : JsonList
  | cons (hd : Json) (tl : JsonList) : JsonList
inductive JsonFields where
  | fnil : JsonFields
  | fcons (k : String) (v : Json) (tl : JsonFields) : JsonFields
end

/-- Quote a JSON string.  Escaping is not modelled: all keys and values used in
the development are escape-free. -/
def jsonQuote (s : String) : String := "\"" ++ s ++ "\""

mutual
/-- Model of the serialization produced by `JSON.stringify` (no replacer):
members in field order, no whitespace. -/
def Json.serialize : Json → String
  | .null => "null"
  | .bool b => cond b "true" "false"
  | .num n => toString n
  | .str s => jsonQuote s
  | .arr xs => "[" ++ JsonList.serialize xs ++ "]"
  | .obj fs => "\x7b" ++ JsonFields.serialize fs ++ "\x7d"
def JsonList.serialize : JsonList → String
  | .nil => ""
  | .cons x .nil => Json.serialize x
  | .cons x (.cons y tl) =>
      Json.serialize x ++ "," ++ JsonList.serialize (.cons y tl)
def JsonFields.serialize : JsonFields → String
  | .fnil => ""
  | .fcons k v .fnil => jsonQuote k ++ ":" ++ Json.serialize v
  | .fcons k v (.fcons k2 v2 tl) =>
      jsonQuote k ++ ":" ++ Json.serialize v ++ "," ++
        JsonFields.serialize (.fcons k2 v2 tl)
end

/-- Keys of an object field list, in insertion order (`Object.keys`). -/
def JsonFields.keys : JsonFields → List String
  | .fnil => []
  | .fcons k _ tl => k :: JsonFields.keys tl

/-- `Object.keys(payload)` for an object payload (`[]` on non-objects). -/
def Json.topKeys : Json → List String
  | .obj fs => fs.keys
  | _ => []

/-- First binding of key `k` (JS property lookup; keys are unique). -/
def JsonFields.lookup : JsonFields → String → Option Json
  | .fnil, _ => none
  | .fcons k v tl, k2 => if k = k2 then some v else JsonFields.lookup tl k2

/-- Lexicographic order on character lists by code point.  For the key strings
occurring in webhook payloads (ASCII) this coincides with the code-unit
comparison used by the default `Array.prototype.sort`. -/
def lexLeChars : List Char → List Char → Bool
  | [], _ => true
  | _ :: _, [] => false
  | a :: as, b :: bs =>
      if a.toNat < b.toNat then true
      else if b.toNat < a.toNat then false
      else lexLeChars as bs

/-- String comparison used for key sorting (JS `a < b` on strings). -/
def strLe (a b : String) : Bool := lexLeChars a.toList b.toList

/-- Insert a field into a key-sorted field list. -/
def insertFieldSorted (k : String) (v : Json) : JsonFields → JsonFields
  | .fnil => .fcons k v .fnil
  | .fcons k2 v2 tl =>
      if strLe k k2 then .fcons k v (.fcons k2 v2 tl)
      else .fcons k2 v2 (insertFieldSorted k v tl)

/-- Sort a field list by key. -/
def sortFieldsByKey : JsonFields → JsonFields
  | .fnil => .fnil
  | .fcons k v tl => insertFieldSorted k v (sortFieldsByKey tl)

mutual
/-- Keep, at every object level, only the fields whose key occurs in `ks`,
recursing into the kept values.  Together with `Json.sortDeep` this models the
member selection performed by `JSON.stringify(payload, propertyList)`: with an
array replacer, every object (nested ones included) is serialized using only
the listed keys. -/
def Json.restrict (ks : List String) : Json → Json
  | .arr xs => .arr (JsonList.restrict ks xs)
  | .obj fs => .obj (JsonFields.restrict ks fs)
  | j => j
def JsonList.restrict (ks : List String) : JsonList → JsonList
  | .nil => .nil
  | .cons x tl => .cons (Json.restrict ks x) (JsonList.restrict ks tl)
def JsonFields.restrict (ks : List String) : JsonFields → JsonFields
  | .fnil => .fnil
  | .fcons k v tl =>
      if ks.contains k then .fcons k (Json.restrict ks v) (JsonFields.restrict ks tl)
      else JsonFields.restrict ks tl
end

mutual
/-- Sort every object's fields by key, at every depth.  Applied after
`Json.restrict` this reproduces the output order of
`JSON.stringify(payload, sortedKeys)`: a property list that is sorted and
duplicate-free emits the surviving keys of every object in sorted order. -/
def Json.sortDeep : Json → Json
  | .arr xs => .arr (JsonList.sortDeep xs)
  | .obj fs => .obj (sortFieldsByKey (JsonFields.sortDeep fs))
  | j => j
def JsonList.sortDeep : JsonList → JsonList
  | .nil => .nil
  | .cons x tl => .cons (Json.sortDeep x) (JsonList.sortDeep tl)
def JsonFields.sortDeep : JsonFields → JsonFields
  | .fnil => .fnil
  | .fcons k v tl => .fcons k (Json.sortDeep v) (JsonFields.sortDeep tl)
end

/-- Sort only the top-level fields of an object, leaving nested values
untouched.  Models the rebuild in the v5 handlers:
`Object.keys(req.body).sort().reduce((acc, key) => ..., occurs at
`src/getfame-backend-v5/server.js` lines 683-688 and `src/unnamed/part_000`
lines 568-573, whose result is passed to `JSON.stringify` with no replacer. -/
def Json.sortTopLevel : Json → Json
  | .obj fs => .obj (sortFieldsByKey fs)
  | j => j

/-- The message signed by the inline NOWPayments check of the v5 servers:
`JSON.stringify(sortedParams)` where `sortedParams` is the body rebuilt with
its top-level keys sorted (`src/unnamed/part_000` lines 568-578). -/
def npSignedMessage (body : Json) : String :=
  Json.serialize body.sortTopLevel

/-- The message signed by the library verifier
`verifyIPNSignature` (`src/getfame-backend-v3-complete/lib/orders.js` line 73
and `src/getfame-backend-v3/lib/nowpayments.js` line 74):
`JSON.stringify(payload, Object.keys(payload).sort())`.  The array replacer
keeps, in every object of the tree, only keys that occur in the (sorted)
top-level key list, emitting them in sorted order. -/
def ipnSignedMessage (payload : Json) : String :=
  Json.serialize (Json.sortDeep (Json.restrict payload.topKeys payload))

/-- JS truthiness test used on env-var strings: `!secret` holds when the
variable is unset or the empty string. -/
def jsFalsyStr : Option String → Bool
  | none => true
  | some s => s.isEmpty

/-- `verifyIPNSignature(payload, signature)` from
`src/getfame-backend-v3-complete/lib/orders.js` lines 68-75.
`hmac key msg` stands for the hex HMAC-SHA512 digest produced by
`crypto.createHmac('sha512', key).update(msg).digest('hex')`; the digest
itself is an external primitive and is passed in as a parameter.
The source returns `true` whenever the secret is unset (`if (!secret) return
true`); otherwise it compares the digest of the sorted-replacer serialization
with the signature. -/
def verifyIPNSignature (hmac : String → String → String)
    (secret : Option String) (payload : Json) (signature : String) : Bool :=
  if jsFalsyStr secret then true
  else
    match secret with
    | none => true
    | some s => hmac s (ipnSignedMessage payload) = signature

/-! ## The v5 JSON-file order store and its webhook handlers
(`src/unnamed/part_000`)

Orders live in an `orders.json` array.  The network (JAP panel, Stripe SDK)
is passed in as explicit outcome values.
-/

/-- One record of the v5 order file.  Fields the verified handlers never read
(email, amount, platform/service/quality labels, dates) are omitted. -/
structure OrderV5 where
  id : Nat
  orderId : String
  stripeSessionId : Option String
  link : String
  quantity : Nat
  japServiceId : Option Nat
  status : String
  japOrderId : Option Nat
deriving DecidableEq

/-- The parsed contents of `orders.json`. -/
abbrev OrdersV5 := List OrderV5

/-- Outcome of the single HTTP POST a JAP call performs: either the fetch or
the body parse throws, or it yields a JSON body with optional `order` and
`error` fields (`some` models a truthy field). -/
inductive JapHttp where
  | networkThrow (msg : String)
  | reply (order : Option Nat) (error : Option String)
deriving DecidableEq

/-- Return shape of `placeJapOrder`. -/
structure JapResult where
  success : Bool
  orderId : Option Nat
  error : Option String
deriving DecidableEq

/-- `placeJapOrder(serviceId, link, quantity)`, `src/unnamed/part_000` lines
130-164.  Exactly one HTTP attempt (counted by the second component); a thrown
fetch becomes a failure result, a body with a truthy `order` a success, any
other body a failure with `data.error || 'Unknown JAP error'`.  The
`serviceId`, `link` and `quantity` arguments form the request body and do not
influence the modelled outcome. -/
def placeJapOrder (apiKey : Option String) (serviceId : Nat) (link : String)
    (quantity : Nat) (out : JapHttp) : JapResult × Nat :=
  match apiKey, serviceId, link, quantity with
  | none, _, _, _ => (⟨false, none, some "JAP not configured"⟩, 0)
  | some _, _, _, _ =>
    match out with
    | .networkThrow m => (⟨false, none, some m⟩, 1)
    | .reply (some o) _ => (⟨true, some o, none⟩, 1)
    | .reply none e => (⟨false, none, some (e.getD "Unknown JAP error")⟩, 1)

/-- `updateOrderStatus(orderId, status, japOrderId)`, `src/unnamed/part_000`
lines 223-234: finds the first record with the given numeric id (the
`o.orderId === orderId` alternative never fires for the numeric ids the
handlers pass, since `o.orderId` is a string) and overwrites its status;
`japOrderId` is only written when truthy. -/
def updateOrderStatusV5 (orders : OrdersV5) (oid : Nat) (status : String)
    (japOrderId : Option Nat) : OrdersV5 :=
  match orders with
  | [] => []
  | o :: rest =>
    if o.id = oid then
      { o with
        status := status,
        japOrderId := (match japOrderId with | some j => some j | none => o.japOrderId) } :: rest
    else o :: updateOrderStatusV5 rest oid status japOrderId

/-- `orders.find(o => o.orderId === order_id)`. -/
def findByOrderId (orders : OrdersV5) (oid : String) : Option OrderV5 :=
  orders.find? (fun o => o.orderId == oid)

/-- `orders.find(o => o.stripeSessionId === sessionId)` (part_000 236-239). -/
def getOrderByStripeSession (orders : OrdersV5) (sid : String) : Option OrderV5 :=
  orders.find? (fun o => o.stripeSessionId == some sid)

/-- String field access `body.k` on a parsed JSON body. -/
def Json.getStr (j : Json) (k : String) : Option String :=
  match j with
  | .obj fs =>
    match fs.lookup k with
    | some (.str s) => some s
    | _ => none
  | _ => none

/-- Result of a webhook handler invocation: the stored orders after the call,
the number of upstream JAP dispatch calls made, and whether the request was
acknowledged (`false` models the 400 rejection). -/
structure HandlerOutcome where
  orders : OrdersV5
  japCalls : Nat
  acknowledged : Bool
deriving DecidableEq

/-- Event processing of the NOWPayments webhook, `src/unnamed/part_000` lines
586-627: on `payment_status` `finished`/`confirmed`, look the order up by
`order_id`; when it exists and has a JAP service id, place the JAP order and
set the status to `processing` on success and `pending` otherwise; in every
other case only a notification is sent.  The handler always acknowledges. -/
def npProcessEvent (apiKey : Option String) (jap : JapHttp) (body : Json)
    (orders : OrdersV5) : HandlerOutcome :=
  let ps := body.getStr "payment_status"
  if ps == some "finished" || ps == some "confirmed" then
    match body.getStr "order_id" with
    | some oid =>
      match findByOrderId orders oid with
      | some o =>
        match o.japServiceId with
        | some sid =>
          let (res, n) := placeJapOrder apiKey sid o.link o.quantity jap
          ⟨updateOrderStatusV5 orders o.id
             (if res.success then "processing" else "pending") res.orderId, n, true⟩
        | none => ⟨orders, 0, true⟩
      | none => ⟨orders, 0, true⟩
    | none => ⟨orders, 0, true⟩
  else ⟨orders, 0, true⟩

/-- The NOWPayments webhook handler, `src/unnamed/part_000` lines 562-634
(same verification gate as `src/getfame-backend-v5/server.js` lines 677-700).
The signature is only checked when the IPN secret is configured (truthy) and
the `x-nowpayments-sig` header is present (truthy); the expected signature is
the HMAC-SHA512 of the top-level-sorted re-serialization of the body.  A
mismatch is rejected with a 400 and nothing else happens; in every other case
the event is processed. -/
def nowpaymentsWebhook (hmac : String → String → String) (secret : Option String)
    (apiKey : Option String) (jap : JapHttp) (sig : Option String) (body : Json)
    (orders : OrdersV5) : HandlerOutcome :=
  match secret with
  | none => npProcessEvent apiKey jap body orders
  | some s =>
    if s.isEmpty then npProcessEvent apiKey jap body orders
    else
      match sig with
      | none => npProcessEvent apiKey jap body orders
      | some sg =>
        if sg.isEmpty then npProcessEvent apiKey jap body orders
        else if hmac s (npSignedMessage body) = sg then npProcessEvent apiKey jap body orders
        else ⟨orders, 0, false⟩

/-- The slice of a Stripe `checkout.session.completed` session the handler
reads: the session id and the metadata it put there at checkout creation. -/
structure StripeSession where
  sessionId : String
  link : String
  quantity : Nat
  japServiceId : Nat
deriving DecidableEq

/-- A parsed Stripe webhook event. -/
structure StripeEvent where
  type : String
  session : StripeSession
deriving DecidableEq

/-- Event acquisition of the v5 Stripe webhook, `src/unnamed/part_000` lines
429-442: with a configured secret the event is whatever
`stripe.webhooks.constructEvent` (external SDK, outcome passed in as
`sdkVerify`) produces, and its exception is answered with a 400; with no
secret the event is simply `JSON.parse(req.body.toString())`, whose result is
passed in as `parsedBody`. -/
def stripeAcquireEvent (secret : Option String) (sdkVerify : Except String StripeEvent)
    (parsedBody : StripeEvent) : Except String StripeEvent :=
  if jsFalsyStr secret then .ok parsedBody else sdkVerify

/-- Processing of an acquired Stripe event, `src/unnamed/part_000` lines
444-481: every `checkout.session.completed` event places a JAP order (there is
no idempotency guard), then updates the stored order found by Stripe session
id to `processing`/`pending`. -/
def stripeProcessEvent (apiKey : Option String) (jap : JapHttp) (e : StripeEvent)
    (orders : OrdersV5) : OrdersV5 × Nat :=
  if e.type = "checkout.session.completed" then
    let (res, n) :=
      placeJapOrder apiKey e.session.japServiceId e.session.link e.session.quantity jap
    match getOrderByStripeSession orders e.session.sessionId with
    | some o =>
      (updateOrderStatusV5 orders o.id
         (if res.success then "processing" else "pending") res.orderId, n)
    | none => (orders, n)
  else (orders, 0)

/-- The whole Stripe webhook handler of `src/unnamed/part_000` lines 429-484. -/
def stripeWebhook (secret : Option String) (sdkVerify : Except String StripeEvent)
    (parsedBody : StripeEvent) (apiKey : Option String) (jap : JapHttp)
    (orders : OrdersV5) : HandlerOutcome :=
  match stripeAcquireEvent secret sdkVerify parsedBody with
  | .error _ => ⟨orders, 0, false⟩
  | .ok e =>
    let (os, n) := stripeProcessEvent apiKey jap e orders
    ⟨os, n, true⟩

/-! ## The v3-complete in-memory order store
(`src/getfame-backend-v3-complete/lib/orders.js` and `server.js`)

Orders live in a `Map` keyed by order id, modelled as an association list with
unique keys.
-/

/-- An order record of the v3-complete store.  The pricing and notification
fields (`serviceName`, `email`, `pricePerK`, `total`, `paymentMethod`,
`createdAt`) are carried by the source record but never read by the verified
operations and are omitted. -/
structure OrderR where
  id : String
  serviceId : Nat
  link : String
  quantity : Nat
  status : String
  japOrderId : Option Nat
deriving DecidableEq

/-- The `orders` Map. -/
abbrev StoreV3 := List (String × OrderR)

/-- `orders.get(orderId)`. -/
def mapGet (m : StoreV3) (k : String) : Option OrderR :=
  match m with
  | [] => none
  | (k2, v) :: rest => if k2 = k then some v else mapGet rest k

/-- `orders.set(orderId, order)`: replace the existing binding, else append. -/
def mapSet : StoreV3 → String → OrderR → StoreV3
  | [], k, v => [(k, v)]
  | (k2, v2) :: rest, k, v =>
    if k2 = k then (k, v) :: rest else (k2, v2) :: mapSet rest k v

/-- `updateOrderStatus(orderId, status, extra)`,
`src/getfame-backend-v3-complete/lib/orders.js` lines 20-28: when the order
exists, its status is overwritten unconditionally and the `extra` object is
assigned onto it; the (possibly updated) record is returned.  The only extra
the callers ever pass is a `japOrderId` field, so `extra` is modelled as
`Option (Option Nat)`: `none` is the empty extra object, `some j` an extra
`\x7b japOrderId: j \x7d`. -/
def updateOrderStatus (orders : StoreV3) (orderId status : String)
    (extra : Option (Option Nat)) : StoreV3 × Option OrderR :=
  match mapGet orders orderId with
  | none => (orders, none)
  | some o =>
    let o2 := { o with
      status := status,
      japOrderId := (match extra with | some j => j | none => o.japOrderId) }
    (mapSet orders orderId o2, some o2)

/-- `markPaid`: the payment-marking step both webhook handlers of
`src/getfame-backend-v3-complete/server.js` perform (lines 132 and 147),
namely `updateOrderStatus(orderId, 'paid')` with no extra. -/
def markPaid (orders : StoreV3) (orderId : String) : StoreV3 × Option OrderR :=
  updateOrderStatus orders orderId "paid" none

/-- `createJAPOrder(...)` of the v3 JAP client (`src/unnamed/part_003` lines
26-46): one HTTP attempt; a thrown fetch rethrows, a truthy `error` field
throws, otherwise `\x7b japOrderId: data.order \x7d` is returned (`data.order`
may be absent).  The second component counts upstream attempts. -/
def createJAPOrder (out : JapHttp) : Except String (Option Nat) × Nat :=
  match out with
  | .networkThrow m => (.error m, 1)
  | .reply o (some e) => if e.isEmpty then (.ok o, 1) else (.error e, 1)
  | .reply o none => (.ok o, 1)

/-- `processOrder(orderId)`, `src/getfame-backend-v3-complete/lib/orders.js`
lines 30-37: throws when the order is missing or not in status `paid`;
otherwise calls JAP and on success records status `processing` together with
the JAP order id.  Components: store after the call, upstream attempts made,
thrown error or returned result. -/
def processOrder (jap : JapHttp) (orders : StoreV3) (orderId : String) :
    StoreV3 × Nat × Except String (Option Nat) :=
  match mapGet orders orderId with
  | none => (orders, 0, .error "Order not found")
  | some o =>
    if o.status = "paid" then
      match createJAPOrder jap with
      | (.error m, n) => (orders, n, .error m)
      | (.ok japId, n) =>
        let (os, _) := updateOrderStatus orders orderId "processing" (some japId)
        (os, n, .ok japId)
    else (orders, 0, .error "Order not paid")

/-- The fulfillment path shared by the two webhook handlers of
`src/getfame-backend-v3-complete/server.js` (stripe lines 129-134, nowpayments
lines 146-149): mark the order paid, then process it, swallowing processing
errors.  Every delivery of the same confirmation event runs this whole path
again.  Components: store after the delivery, upstream JAP calls made. -/
def webhookFulfillV3 (jap : JapHttp) (orders : StoreV3) (orderId : String) :
    StoreV3 × Nat :=
  let (o1, _) := markPaid orders orderId
  let (o2, n, _) := processOrder jap o1 orderId
  (o2, n)

/-! ## The v5 dispatch branch (`src/getfame-backend-v5/server.js`)

This variant of the JAP client is the one claim C5 cites; it differs from
`placeJapOrder` in returning the raw parsed body (or null).
-/

/-- `createJAPOrder(serviceId, link, quantity)` of
`src/getfame-backend-v5/server.js` lines 436-462: a single fetch inside one
try/catch, no loop and no backoff; a thrown fetch returns null, otherwise the
parsed body (optional `order` and `error` fields) is returned as-is.
`attempts n` is the outcome the (n+1)-st upstream attempt would have; the code
only ever performs attempt 0.  The second component counts attempts made. -/
def createJAPOrderV5 (apiKey : Option String) (attempts : Nat → JapHttp) :
    Option (Option Nat × Option String) × Nat :=
  match apiKey with
  | none => (none, 0)
  | some _ =>
    match attempts 0 with
    | .networkThrow _ => (none, 1)
    | .reply o e => (some (o, e), 1)

/-- The dispatch branch of the v5 Stripe webhook,
`src/getfame-backend-v5/server.js` lines 595-608: after a confirmed payment
the JAP order is attempted once; on `japOrder?.order` the stored order becomes
`completed`, otherwise `pending` (with a manual-action notification).
Components: the status recorded for the order, upstream attempts made. -/
def dispatchAfterPayment (apiKey : Option String) (attempts : Nat → JapHttp) :
    String × Nat :=
  match createJAPOrderV5 apiKey attempts with
  | (some (some _, _), n) => ("completed", n)
  | (_, n) => ("pending", n)

/-! ## Checkout validation (`src/unnamed/part_001`,
`src/getfame-backend-v5/server.js`, `src/getfame-backend-v3-complete/server.js`)
-/

/-- A catalog service record as the v2/v3 servers use it.  The JS `rate` is a
formatted decimal string; it is modelled by its rational value.  The `refill`
and `cancel` flags carried by some variants are read by no verified
operation and are omitted. -/
structure Svc where
  id : Nat
  name : String
  platform : String
  serviceType : String
  description : String
  rate : Rat
  min : Int
  max : Int
deriving DecidableEq

/-- `Math.round`: floor of x + 1/2 (exact for JS on the magnitudes used). -/
def jsRound (x : Rat) : Int := Int.floor (x + 1 / 2)

/-- `Math.round(x * 100) / 100`. -/
def round2 (x : Rat) : Rat := (jsRound (x * 100) : Rat) / 100

/-- `calculateTotal(rate, quantity)` of the v2 services manager
(`src/getfame-backend-v2/lib/services.js` lines 116-118). -/
def calculateTotal (rate : Rat) (quantity : Int) : Rat :=
  round2 (rate / 1000 * quantity)

/-- Possible results of the head of the v2 checkout-session creation. -/
inductive CheckoutResult where
  | errServiceNotFound
  | errQuantityBounds (min max : Int)
  | session (amountCents : Int)
deriving DecidableEq

/-- Head of `createCheckoutSession`, `src/unnamed/part_001` lines 24-73: the
service is resolved, the quantity is checked against the service bounds, and
only then is the Stripe session created.  The Bool records whether a Stripe
session was created (the external SDK call is assumed to succeed). -/
def createCheckoutSession (service : Option Svc) (quantity : Int) :
    CheckoutResult × Bool :=
  match service with
  | none => (.errServiceNotFound, false)
  | some s =>
    if quantity < s.min ∨ quantity > s.max then (.errQuantityBounds s.min s.max, false)
    else (.session (jsRound (calculateTotal s.rate quantity * 100)), true)

/-- Split a character list at every at-sign. -/
def splitAtSigns : List Char → List (List Char)
  | [] => [[]]
  | c :: rest =>
    let r := splitAtSigns rest
    if c = '@' then [] :: r
    else
      match r with
      | s :: ss => (c :: s) :: ss
      | [] => [[c]]

/-- Whitespace-freedom for a regex segment (the segments produced by
`splitAtSigns` contain no at-sign, so this is the class `[^\s@]`; JS `\s` is
modelled by `Char.isWhitespace`, which covers the characters arising here). -/
def noSpace (cs : List Char) : Bool := cs.all (fun c => !c.isWhitespace)

/-- Test of the regex `^[^\s@]+@[^\s@]+\.[^\s@]+$` used by
`validateOrderInput`: exactly one at-sign with a nonempty whitespace-free
local part, a whitespace-free domain part, and a dot in the interior of the
domain part (so that nonempty runs fit on both of its sides). -/
def emailRegexTest (s : String) : Bool :=
  match splitAtSigns s.toList with
  | [l, r] =>
    !l.isEmpty && noSpace l && noSpace r && ((r.drop 1).dropLast.contains '.')
  | _ => false

/-- The request body of the v5 `/api/order` endpoint as `validateOrderInput`
reads it.  `none` models an absent / non-string / non-number field. -/
structure OrderInput where
  link : Option String
  email : Option String
  quantity : Option Int
  serviceId : Option Int
  amount : Option Rat
deriving DecidableEq

/-- `validateOrderInput(body)`, `src/getfame-backend-v5/server.js` lines
402-426.  Note that the quantity is checked only against the global bounds
1..1000000 — the referenced service's own min/max are never consulted. -/
def validateOrderInput (b : OrderInput) : List String :=
  (match b.link with
   | none => ["Invalid link"]
   | some l => if l.length < 5 then ["Invalid link"] else []) ++
  (match b.email with
   | none => ["Invalid email"]
   | some e => if emailRegexTest e then [] else ["Invalid email"]) ++
  (match b.quantity with
   | none => ["Invalid quantity"]
   | some q => if q < 1 ∨ q > 1000000 then ["Invalid quantity"] else []) ++
  (match b.serviceId with
   | none => ["Invalid service ID"]
   | some sid => if sid = 0 then ["Invalid service ID"] else []) ++
  (match b.amount with
   | none => ["Invalid amount"]
   | some a => if a < mkRat 1 2 ∨ a > 50000 then ["Invalid amount"] else [])

/-- Gate of the v5 `/api/order` handler (`src/getfame-backend-v5/server.js`
lines 484-540): with an empty error list the handler goes on to create the
Stripe checkout session (Stripe assumed configured). -/
def orderEndpointV5Proceeds (b : OrderInput) : Bool :=
  (validateOrderInput b).isEmpty

/-- Results of the v3-complete `/api/order` endpoint. -/
inductive OrderEndpointV3Result where
  | missingFields
  | serviceNotFound
  | created
deriving DecidableEq

/-- The v3-complete `/api/order` handler,
`src/getfame-backend-v3-complete/server.js` lines 61-88: presence checks on
the four fields (a zero quantity is falsy), catalog lookup (the looked-up
service is passed in), then `createOrder` and `createStripeCheckout` run
unconditionally — the service's min/max are never compared with the quantity.
Components: response, order record stored, Stripe checkout session created. -/
def orderEndpointV3 (service : Option Svc) (serviceId : Option Nat)
    (link : Option String) (quantity : Option Nat) (email : Option String) :
    OrderEndpointV3Result × Bool × Bool :=
  match serviceId, link, quantity, email with
  | some _, some _, some q, some _ =>
    if q = 0 then (.missingFields, false, false)
    else
      match service with
      | none => (.serviceNotFound, false, false)
      | some _ => (.created, true, true)
  | _, _, _, _ => (.missingFields, false, false)

/-! ## Service catalog cache (`src/getfame-backend-v2/lib/services.js`,
`src/getfame-backend-v3/Type: lib/lib/lib/services.js`, with the curated
lists of `src/unnamed/part_002` and `src/unnamed/part_004`)
-/

/-- Display metadata of a curated catalog entry. -/
structure SvcInfo where
  name : String
  platform : String
  serviceType : String
  description : String
deriving DecidableEq

/-- `CURATED_SERVICES` of `src/unnamed/part_002` (the v3 curated list), in the
enumeration order of `Object.entries` (integer-like keys ascending). -/
def CURATED_SERVICES : List (Nat × SvcInfo) :=
  [ (1761, ⟨"Likes - Elite", "instagram", "likes", "Top quality"⟩),
    (5951, ⟨"Followers - Elite", "instagram", "followers", "Premium USA followers"⟩),
    (6073, ⟨"Likes - Premium", "instagram", "likes", "USA/EU exclusive"⟩),
    (6074, ⟨"Followers - Premium", "instagram", "followers", "USA/EU exclusive"⟩),
    (7444, ⟨"Views - Premium", "instagram", "views", "Fast views"⟩),
    (7445, ⟨"Likes - Standard", "instagram", "likes", "Fast delivery"⟩),
    (7446, ⟨"Followers - Standard", "instagram", "followers", "Fast delivery"⟩) ]

/-- `isCurated(serviceId)` of `src/unnamed/part_002`. -/
def isCurated (id : Nat) : Bool := (CURATED_SERVICES.lookup id).isSome

/-- `getCuratedInfo(serviceId)` of `src/unnamed/part_002`. -/
def getCuratedInfo (id : Nat) : Option SvcInfo := CURATED_SERVICES.lookup id

/-- A raw JAP catalog entry as both services managers consume it (numeric
fields by value; `refill`/`cancel` are never read by verified code). -/
structure JapSvc where
  service : Nat
  rate : Rat
  min : Int
  max : Int
deriving DecidableEq

/-- The per-entry transform of the v3 `getServices`
(`src/getfame-backend-v3/Type: lib/lib/lib/services.js` lines 19-31), applied
after the `isCurated` filter, so the `none` branch is unreachable there (the
JS would throw on it). -/
def transformCurated (margin : Rat) (s : JapSvc) : Svc :=
  match getCuratedInfo s.service with
  | some info =>
    ⟨s.service, info.name, info.platform, info.serviceType, info.description,
      round2 (s.rate * margin), s.min, s.max⟩
  | none => ⟨s.service, "", "", "", "", 0, s.min, s.max⟩

/-- `getCuratedFallback()` of
`src/getfame-backend-v3/Type: lib/lib/lib/services.js` lines 42-47: the
statically configured substitute list with rate `12.99`, min 100, max
10000. -/
def getCuratedFallbackV3 : List Svc :=
  CURATED_SERVICES.map (fun p =>
    ⟨p.1, p.2.name, p.2.platform, p.2.serviceType, p.2.description,
      mkRat 1299 100, 100, 10000⟩)

/-- The module-level cache of both services managers: the last stored snapshot
and its timestamp (milliseconds). -/
structure CatalogState where
  cache : Option (List Svc)
  timestamp : Nat
deriving DecidableEq

/-- Outcome of one upstream JAP catalog fetch. -/
inductive Fetched where
  | ok (xs : List JapSvc)
  | exn
deriving DecidableEq

/-- `CACHE_DURATION = 5 * 60 * 1000`. -/
def CACHE_DURATION : Nat := 5 * 60 * 1000

/-- The fetch path of the v3 `getServices`
(`src/getfame-backend-v3/Type: lib/lib/lib/services.js` lines 13-39): an
empty or failed fetch, or one without curated entries, yields the curated
fallback list and leaves the cache untouched — the cached snapshot is never
consulted here. -/
def getServicesV3Fetch (margin : Rat) (now : Nat) (st : CatalogState)
    (f : Fetched) : List Svc × CatalogState :=
  match f with
  | .exn => (getCuratedFallbackV3, st)
  | .ok xs =>
    if xs.isEmpty then (getCuratedFallbackV3, st)
    else
      let cs := (xs.filter (fun s => isCurated s.service)).map (transformCurated margin)
      if cs.isEmpty then (getCuratedFallbackV3, st)
      else (cs, ⟨some cs, now⟩)

/-- `getServices()` of `src/getfame-backend-v3/Type: lib/lib/lib/services.js`
lines 9-40: a fresh cache is returned directly, otherwise the fetch path
runs. -/
def getServicesV3 (margin : Rat) (now : Nat) (st : CatalogState) (f : Fetched) :
    List Svc × CatalogState :=
  match st.cache with
  | some c =>
    if now - st.timestamp < CACHE_DURATION then (c, st)
    else getServicesV3Fetch margin now st f
  | none => getServicesV3Fetch margin now st f

/-- `CURATED_SERVICES` of `src/unnamed/part_004` (the v2 curated list), keys
ascending per `Object.keys` on integer-like keys. -/
def CURATED_SERVICES_V2 : List (Nat × SvcInfo) :=
  [ (1761, ⟨"Likes - Elite", "instagram", "likes", "Top quality, 30-day refill"⟩),
    (5882, ⟨"Growth Package - Pro", "instagram", "package", "Followers + Likes + Comments bundle"⟩),
    (5883, ⟨"Growth Package - Elite", "instagram", "package", "Maximum engagement bundle"⟩),
    (5951, ⟨"Followers - Elite", "instagram", "followers", "Premium USA followers, non-drop guarantee"⟩),
    (6073, ⟨"Likes - Premium", "instagram", "likes", "USA/Europe exclusive, never drops"⟩),
    (6074, ⟨"Followers - Premium", "instagram", "followers", "USA/Europe exclusive, never drops"⟩),
    (6075, ⟨"Comments - Custom", "instagram", "comments", "USA/Europe, your own text"⟩),
    (6384, ⟨"Comments - Random", "instagram", "comments", "USA/Europe, engaging comments"⟩),
    (7444, ⟨"Story Views - Premium", "instagram", "views", "USA/Europe viewers"⟩),
    (7445, ⟨"Likes - Standard", "instagram", "likes", "USA/Europe, fast delivery"⟩),
    (7446, ⟨"Followers - Standard", "instagram", "followers", "USA/Europe, fast delivery"⟩),
    (8753, ⟨"Monthly Growth - Premium", "instagram", "package", "~5K followers/month, AI-powered"⟩),
    (9132, ⟨"Followers - Pro", "instagram", "followers", "Algorithm-safe, boosts reach"⟩),
    (10066, ⟨"Likes - Pro", "instagram", "likes", "Real engagement, 1-year refill"⟩) ]

/-- `ALLOWED_SERVICE_IDS` of `src/unnamed/part_004`. -/
def ALLOWED_SERVICE_IDS : List Nat := CURATED_SERVICES_V2.map Prod.fst

/-- The comparator of `filterAndRenameServices` (platform, then type, then
name; `localeCompare` modelled by code-point order, which coincides on the
ASCII names configured). -/
def svcLe (a b : Svc) : Bool :=
  if a.platform == b.platform then
    if a.serviceType == b.serviceType then strLe a.name b.name
    else strLe a.serviceType b.serviceType
  else strLe a.platform b.platform

/-- Stable insertion of a service into a sorted list. -/
def insertSvc (s : Svc) : List Svc → List Svc
  | [] => [s]
  | t :: rest => if svcLe s t then s :: t :: rest else t :: insertSvc s rest

/-- Sort per the comparator (`Array.prototype.sort`, modelled stably). -/
def sortSvcList : List Svc → List Svc
  | [] => []
  | s :: rest => insertSvc s (sortSvcList rest)

/-- `filterAndRenameServices(japServices)` of `src/unnamed/part_004` lines
57-82: keep allowed ids, attach the configured display metadata, sort. -/
def filterAndRenameServices (xs : List JapSvc) : List Svc :=
  sortSvcList ((xs.filter (fun s => ALLOWED_SERVICE_IDS.contains s.service)).map (fun s =>
    match CURATED_SERVICES_V2.lookup s.service with
    | some cfg =>
      ⟨s.service, cfg.name, cfg.platform, cfg.serviceType, cfg.description,
        s.rate, s.min, s.max⟩
    | none => ⟨s.service, "", "", "", "", s.rate, s.min, s.max⟩))

/-- The fetch path of the v2 `ServicesManager.getServices`
(`src/getfame-backend-v2/lib/services.js` lines 28-53): on success the curated
transform with markup is stored and returned; on a thrown fetch the previously
cached snapshot is returned if one exists (lines 47-53), else the error is
rethrown (modelled by `Except Unit`). -/
def getServicesV2Fetch (margin : Rat) (now : Nat) (st : CatalogState)
    (f : Fetched) : Except Unit (List Svc) × CatalogState :=
  match f with
  | .ok xs =>
    let services := (filterAndRenameServices xs).map (fun s =>
      { s with rate := round2 (s.rate * margin) })
    (.ok services, ⟨some services, now⟩)
  | .exn =>
    match st.cache with
    | some c => (.ok c, st)
    | none => (.error (), st)

/-- `ServicesManager.getServices(forceRefresh)` of
`src/getfame-backend-v2/lib/services.js` lines 22-54. -/
def getServicesV2 (margin : Rat) (now : Nat) (force : Bool) (st : CatalogState)
    (f : Fetched) : Except Unit (List Svc) × CatalogState :=
  match st.cache with
  | some c =>
    if !force && now - st.timestamp < CACHE_DURATION then (.ok c, st)
    else getServicesV2Fetch margin now st f
  | none => getServicesV2Fetch margin now st f

/-! ## Fixtures: concrete inputs used to run the embedded handlers -/

/-- Concrete stand-in for the external HMAC-SHA512 hex digest, used to run the
handlers on explicit inputs (the handlers are verified for every digest
function; this one makes runs computable). -/
def sampleHmac (key msg : String) : String := key ++ "#" ++ msg

/-- A pending v3-complete order. -/
def sampleOrderPending : OrderR :=
  ⟨"A", 7446, "https://instagram.com/x", 1000, "pending", none⟩

/-- A v3-complete store holding one pending order. -/
def sampleStoreV3 : StoreV3 := [("A", sampleOrderPending)]

/-- A completed-checkout Stripe event for the v5 handler. -/
def sampleStripeEvent : StripeEvent :=
  ⟨"checkout.session.completed", ⟨"cs_1", "https://instagram.com/x", 1000, 7446⟩⟩

/-- A v3-complete order already in status `paid`. -/
def samplePaidOrder : OrderR :=
  ⟨"C", 7446, "https://instagram.com/x", 1000, "paid", none⟩

/-- A store holding `samplePaidOrder`. -/
def samplePaidStore : StoreV3 := [("C", samplePaidOrder)]

/-- A v3-complete order already past `paid` (status `processing`). -/
def sampleProcessingOrder : OrderR :=
  ⟨"B", 7446, "https://instagram.com/x", 1000, "processing", some 55⟩

/-- A store holding `sampleProcessingOrder`. -/
def sampleProcessingStore : StoreV3 := [("B", sampleProcessingOrder)]

/-- A finished NOWPayments IPN body. -/
def sampleNPBody : Json :=
  .obj (.fcons "payment_status" (.str "finished")
    (.fcons "order_id" (.str "gf_1") .fnil))

/-- A v5 order file holding the pending order the IPN body refers to. -/
def sampleNPOrders : OrdersV5 :=
  [⟨1, "gf_1", none, "https://instagram.com/x", 500, some 7446, "pending", none⟩]

/-- An attempt stream whose first upstream attempt times out and whose later
attempts would succeed. -/
def sampleAttempts : Nat → JapHttp :=
  fun n => if n = 0 then .networkThrow "timeout" else .reply (some 5) none

/-- A catalog service with bounds 100..10000. -/
def sampleSvc : Svc :=
  ⟨7446, "Followers - Standard", "instagram", "followers", "Fast delivery",
    mkRat 1299 100, 100, 10000⟩

/-- A v5 order body whose quantity 5 is below `sampleSvc.min` but inside the
global bounds of `validateOrderInput`. -/
def sampleLowQuantityBody : OrderInput :=
  ⟨some "https://instagram.com/someuser", some "user@mail.com", some 5,
    some 7446, some 10⟩

/-- A catalog snapshot from an earlier successful fetch. -/
def sampleSnapshot : List Svc :=
  [⟨5951, "Followers - Elite", "instagram", "followers", "Premium USA followers",
      mkRat 3123 100, 10, 50000⟩]

/-- A catalog cache state holding `sampleSnapshot` with an expired timestamp
relative to time 300000. -/
def sampleCatalogState : CatalogState := ⟨some sampleSnapshot, 0⟩

/-- IPN bodies that differ only in the value of the nested-only field
`inner` of the nested object stored under the top-level key `pay`. -/
def sampleNested1 : Json :=
  .obj (.fcons "payment_status" (.str "finished")
    (.fcons "pay" (.obj (.fcons "inner" (.num 1) .fnil)) .fnil))

/-- Like `sampleNested1` with the nested value 999 instead of 1. -/
def sampleNested2 : Json :=
  .obj (.fcons "payment_status" (.str "finished")
    (.fcons "pay" (.obj (.fcons "inner" (.num 999) .fnil)) .fnil))

/-! ## Theorems -/

/-- Helper: re-storing the value a key already maps to leaves the store
unchanged. -/
theorem mapSet_get_self (m : StoreV3) (k : String) (o : OrderR)
    (h : mapGet m k = some o) : mapSet m k o = m := by
  induction m with
  | nil => simp [mapGet] at h
  | cons p rest ih =>
    obtain ⟨k2, v2⟩ := p
    by_cases hk : k2 = k
    · subst hk
      simp [mapGet] at h
      simp [mapSet, h]
    · simp [mapGet, hk] at h
      simp [mapSet, hk, ih h]

/-- C1: the claim states that N deliveries of the same valid
payment-confirmation webhook yield exactly one provisioning call and at most
one `japOrderId` assignment.  The code has no dispatch guard: in the
v3-complete pipeline two deliveries of the same confirmed webhook for one
pending order make one JAP call each (two in total) and assign `japOrderId`
twice (101, then overwritten by 102); and in the part_000 Stripe handler every
completed-checkout event places a JAP order no matter what the store holds. -/
theorem C1_duplicate_delivery_double_dispatch :
    (webhookFulfillV3 (.reply (some 101) none) sampleStoreV3 "A").2 = 1 ∧
    (webhookFulfillV3 (.reply (some 102) none)
        (webhookFulfillV3 (.reply (some 101) none) sampleStoreV3 "A").1 "A").2 = 1 ∧
    mapGet (webhookFulfillV3 (.reply (some 101) none) sampleStoreV3 "A").1 "A" =
      some ⟨"A", 7446, "https://instagram.com/x", 1000, "processing", some 101⟩ ∧
    mapGet (webhookFulfillV3 (.reply (some 102) none)
        (webhookFulfillV3 (.reply (some 101) none) sampleStoreV3 "A").1 "A").1 "A" =
      some ⟨"A", 7446, "https://instagram.com/x", 1000, "processing", some 102⟩ ∧
    (∀ orders : OrdersV5,
      (stripeProcessEvent (some "k") (.reply (some 7) none) sampleStripeEvent orders).2
        = 1) := by
  refine ⟨by decide, by decide, by decide, by decide, ?_⟩
  intro orders
  unfold stripeProcessEvent
  cases h : getOrderByStripeSession orders sampleStripeEvent.session.sessionId <;>
    simp [h, placeJapOrder, sampleStripeEvent]

/-- C2: the claim states that order states only move forward
(pending-paid-dispatching-fulfilled/failed) and that no state later than paid
is ever moved back to paid.  The code enforces no transition discipline:
`updateOrderStatus` overwrites unconditionally, so the duplicate delivery of a
payment webhook moves an order that is already `processing` (later than paid)
back to `paid`. -/
theorem C2_duplicate_payment_webhook_moves_processing_back_to_paid :
    (mapGet (webhookFulfillV3 (.reply (some 101) none) sampleStoreV3 "A").1 "A").map
      OrderR.status = some "processing" ∧
    (mapGet (markPaid
        (webhookFulfillV3 (.reply (some 101) none) sampleStoreV3 "A").1 "A").1
      "A").map OrderR.status = some "paid" := by
  decide

/-- C3 counterexample: the claim states that for every order already in state
`paid` or later, marking it paid again is a no-op returning the current
record.  For an order in the later state `processing`, marking paid overwrites
the status back to `paid`, so the returned record is not the current one. -/
theorem C3_counterexample_markPaid_not_noop_past_paid :
    (mapGet sampleProcessingStore "B").map OrderR.status = some "processing" ∧
    ((markPaid sampleProcessingStore "B").2.map OrderR.status) = some "paid" ∧
    (markPaid sampleProcessingStore "B").2 ≠ mapGet sampleProcessingStore "B" := by
  decide

/-- C3 as amended: marking paid is a no-op returning the current record, with
no error and no store change, exactly when the order is already in state
`paid` (for later states it resets the status, see the counterexample). -/
theorem C3_markPaid_noop_only_when_exactly_paid (orders : StoreV3) (id : String)
    (o : OrderR) (h : mapGet orders id = some o) (hs : o.status = "paid") :
    markPaid orders id = (orders, some o) := by
  have ho : ({ o with status := "paid", japOrderId := o.japOrderId } : OrderR) = o := by
    cases o; simp_all
  unfold markPaid updateOrderStatus
  rw [h]
  dsimp only
  rw [ho, mapSet_get_self orders id o h]

/-- C3 witness: the no-op holds at a concrete store with a paid order. -/
theorem C3_markPaid_noop_witness :
    mapGet samplePaidStore "C" = some samplePaidOrder ∧
    samplePaidOrder.status = "paid" ∧
    markPaid samplePaidStore "C" = (samplePaidStore, some samplePaidOrder) :=
  ⟨rfl, rfl, C3_markPaid_noop_only_when_exactly_paid samplePaidStore "C"
    samplePaidOrder rfl rfl⟩

/-- C4 counterexample: the claim states a payload is treated as authentic if
and only if the computed HMAC equals the signature header.  A request carrying
no signature header at all is processed as authentic (the order is dispatched
and set to `processing`) even though no header equals the computed digest, so
the only-if direction fails. -/
theorem C4_counterexample_header_absent_accepted_unverified :
    nowpaymentsWebhook sampleHmac (some "sec") (some "key") (.reply (some 9) none)
        none sampleNPBody sampleNPOrders
      = ⟨[⟨1, "gf_1", none, "https://instagram.com/x", 500, some 7446,
            "processing", some 9⟩], 1, true⟩ ∧
    (none : Option String) ≠ some (sampleHmac "sec" (npSignedMessage sampleNPBody)) := by
  decide

/-- C4 as amended: when an IPN secret is configured and the request carries a
nonempty signature header, the handler computes the HMAC-SHA512 of the
top-level-sorted re-serialization of the body and accepts exactly on
equality; a mismatch is rejected with a client error, no order-state change
and no upstream call.  Requests without the header skip verification (C8). -/
theorem C4_signature_checked_when_secret_and_header_present
    (hmac : String → String → String) (s sig : String) (apiKey : Option String)
    (jap : JapHttp) (body : Json) (orders : OrdersV5)
    (hs : ¬s.isEmpty) (hg : ¬sig.isEmpty) :
    (hmac s (npSignedMessage body) = sig →
      nowpaymentsWebhook hmac (some s) apiKey jap (some sig) body orders
        = npProcessEvent apiKey jap body orders) ∧
    (hmac s (npSignedMessage body) ≠ sig →
      nowpaymentsWebhook hmac (some s) apiKey jap (some sig) body orders
        = ⟨orders, 0, false⟩) := by
  unfold nowpaymentsWebhook
  constructor <;> intro h <;> simp [hs, hg, h]

/-- C4 witness: at a concrete body and digest function, a matching signature
is processed and a mismatching one is rejected untouched. -/
theorem C4_signature_check_witness :
    nowpaymentsWebhook sampleHmac (some "sec") (some "key") (.reply (some 9) none)
        (some (sampleHmac "sec" (npSignedMessage sampleNPBody))) sampleNPBody
        sampleNPOrders
      = npProcessEvent (some "key") (.reply (some 9) none) sampleNPBody
          sampleNPOrders ∧
    nowpaymentsWebhook sampleHmac (some "sec") (some "key") (.reply (some 9) none)
        (some "bad") sampleNPBody sampleNPOrders = ⟨sampleNPOrders, 0, false⟩ :=
  ⟨(C4_signature_checked_when_secret_and_header_present sampleHmac "sec" _ _ _ _ _
      (by decide) (by decide)).1 rfl,
   (C4_signature_checked_when_secret_and_header_present sampleHmac "sec" _ _ _ _ _
      (by decide) (by decide)).2 (by decide)⟩

/-- C5: the claim states transient upstream failures are retried with
exponential backoff up to a ceiling before `dispatch_failed`, and explicit
rejections marked `dispatch_failed` immediately.  The v5 dispatch makes
exactly one upstream attempt for every possible attempt stream, records only
`completed` or `pending` (never `dispatch_failed`), and on a first-attempt
timeout records `pending` without ever consulting the second attempt. -/
theorem C5_single_attempt_never_dispatch_failed (k : String)
    (attempts : Nat → JapHttp) :
    (dispatchAfterPayment (some k) attempts).2 = 1 ∧
    ((dispatchAfterPayment (some k) attempts).1 = "completed" ∨
      (dispatchAfterPayment (some k) attempts).1 = "pending") ∧
    (dispatchAfterPayment (some k) attempts).1 ≠ "dispatch_failed" ∧
    dispatchAfterPayment (some "key") sampleAttempts = ("pending", 1) := by
  refine ⟨?_, ?_, ?_, by decide⟩ <;>
  · unfold dispatchAfterPayment createJAPOrderV5
    cases h : attempts 0 with
    | networkThrow m => simp
    | reply o e => cases o <;> simp

/-- C6 counterexample: the claim states every checkout with a quantity outside
the referenced service bounds is rejected before any payment session and any
stored order.  With quantity 5 against a service whose min is 100, the
v3-complete order endpoint stores the order and creates the Stripe session,
and the v5 validator reports no error (its global bounds are 1..1000000), so
the v5 endpoint proceeds to payment as well. -/
theorem C6_counterexample_service_bounds_not_enforced :
    (5 : Int) < sampleSvc.min ∧
    orderEndpointV3 (some sampleSvc) (some 7446)
        (some "https://instagram.com/someuser") (some 5) (some "user@mail.com")
      = (.created, true, true) ∧
    validateOrderInput sampleLowQuantityBody = [] ∧
    orderEndpointV5Proceeds sampleLowQuantityBody = true := by
  decide

/-- C6 as amended: only the v2 payment handler enforces the service bounds —
it rejects any out-of-bounds quantity before a Stripe session is created; the
v3 and v5 checkout endpoints do not consult the service min/max (see the
counterexample). -/
theorem C6_v2_checkout_enforces_service_bounds (s : Svc) (q : Int)
    (h : q < s.min ∨ q > s.max) :
    createCheckoutSession (some s) q = (.errQuantityBounds s.min s.max, false) := by
  simp only [createCheckoutSession]
  rw [if_pos h]

/-- C6 witness: quantity 5 below min 100 is rejected with no session. -/
theorem C6_v2_checkout_bounds_witness :
    createCheckoutSession (some sampleSvc) 5
      = (.errQuantityBounds 100 10000, false) :=
  C6_v2_checkout_enforces_service_bounds sampleSvc 5 (Or.inl (by decide))

/-- C7 counterexample: the claim states that after a successful fetch, a
failing refresh returns the cached snapshot rather than a substitute list.
The v3 services module returns the statically configured curated fallback list
on a failed refresh even though a cached snapshot exists (the two lists do not
even contain the same service ids). -/
theorem C7_counterexample_v3_fallback_despite_cached_snapshot :
    getServicesV3 (mkRat 5 2) 300000 sampleCatalogState .exn
      = (getCuratedFallbackV3, sampleCatalogState) ∧
    (getServicesV3 (mkRat 5 2) 300000 sampleCatalogState .exn).1.map Svc.id
      ≠ sampleSnapshot.map Svc.id := by
  exact ⟨rfl, by decide⟩

/-- C7 as amended: the v2 ServicesManager does serve the last good snapshot
when the upstream fetch fails, for every margin, clock, force flag and cache
contents; the v3 module serves the curated fallback instead (see the
counterexample). -/
theorem C7_v2_serves_stale_cache_on_fetch_failure (margin : Rat) (now : Nat)
    (force : Bool) (c : List Svc) (ts : Nat) :
    (getServicesV2 margin now force ⟨some c, ts⟩ .exn).1 = .ok c := by
  unfold getServicesV2 getServicesV2Fetch
  dsimp only
  split <;> rfl

/-- C8: with an IPN secret configured, a request to the NOWPayments webhook
carrying no x-nowpayments-sig header skips verification entirely and is
processed exactly as an authentic one: the handler result equals both the bare
event-processing result and the result for a request carrying a correctly
signed header. -/
theorem C8_missing_signature_header_skips_verification
    (hmac : String → String → String) (s : String) (apiKey : Option String)
    (jap : JapHttp) (body : Json) (orders : OrdersV5) :
    nowpaymentsWebhook hmac (some s) apiKey jap none body orders
      = npProcessEvent apiKey jap body orders ∧
    nowpaymentsWebhook hmac (some s) apiKey jap none body orders
      = nowpaymentsWebhook hmac (some s) apiKey jap
          (some (hmac s (npSignedMessage body))) body orders := by
  unfold nowpaymentsWebhook
  by_cases h : s.isEmpty
  · simp [h]
  · by_cases h2 : (hmac s (npSignedMessage body)).isEmpty <;> simp [h, h2]

/-- C9: with no webhook secrets configured the checks fail open: the
v3-complete verifyIPNSignature returns true for every payload, signature and
digest function, and the part_000 Stripe handler processes the parsed raw
body fully, for every outcome the SDK verifier could have had. -/
theorem C9_fail_open_when_secrets_unconfigured :
    (∀ (hmac : String → String → String) (payload : Json) (sig : String),
        verifyIPNSignature hmac none payload sig = true) ∧
    (∀ (sdkVerify : Except String StripeEvent) (parsedBody : StripeEvent)
        (apiKey : Option String) (jap : JapHttp) (orders : OrdersV5),
        stripeWebhook none sdkVerify parsedBody apiKey jap orders
          = ⟨(stripeProcessEvent apiKey jap parsedBody orders).1,
             (stripeProcessEvent apiKey jap parsedBody orders).2, true⟩) := by
  constructor
  · intro hmac payload sig; rfl
  · intro sdkVerify parsedBody apiKey jap orders; rfl

/-- C10: the sorted-replacer serialization signs only the keys that occur at
top level, so any two payloads that agree after restricting every object to
the top-level keys produce the same signed message and the same verification
verdict, for every digest function, secret and signature. -/
theorem C10_nested_only_fields_excluded_from_signature
    (hmac : String → String → String) (secret : Option String) (sig : String)
    (p1 p2 : Json)
    (hr : Json.restrict p1.topKeys p1 = Json.restrict p2.topKeys p2) :
    ipnSignedMessage p1 = ipnSignedMessage p2 ∧
    verifyIPNSignature hmac secret p1 sig = verifyIPNSignature hmac secret p2 sig := by
  have hm : ipnSignedMessage p1 = ipnSignedMessage p2 := by
    unfold ipnSignedMessage
    rw [hr]
  refine ⟨hm, ?_⟩
  unfold verifyIPNSignature
  rw [hm]

/-- C10 witness: two payloads differing in the value of a nested-only field
(1 versus 999) serialize differently in full but restrict identically, and
verification treats them identically. -/
theorem C10_nested_only_fields_witness :
    Json.serialize sampleNested1 ≠ Json.serialize sampleNested2 ∧
    ipnSignedMessage sampleNested1 = ipnSignedMessage sampleNested2 ∧
    verifyIPNSignature sampleHmac (some "sec") sampleNested1 "sg"
      = verifyIPNSignature sampleHmac (some "sec") sampleNested2 "sg" :=
  ⟨by decide,
   (C10_nested_only_fields_excluded_from_signature sampleHmac (some "sec") "sg"
      sampleNested1 sampleNested2 rfl).1,
   (C10_nested_only_fields_excluded_from_signature sampleHmac (some "sec") "sg"
      sampleNested1 sampleNested2 rfl).2⟩

end GetFame
